import Mathlib

/-
Shallow Lean 4 embedding of the Entelech funnel analytics system
(src/src/funnel_analytics_engine.py, src/src/insights_generator.py,
schema from src/database/init_database.py), together with proofs about
the frozen specification claims.

Modelling conventions:
* SQL rows are Lean structures, tables are lists, and the SQLite store is
  one `Database` record.
* Timestamps (`created_at`, `signed_at`, `entered_at`, julianday values)
  are rationals measured in days; SQL `BETWEEN` is the inclusive
  comparison on ℚ.
* Python/SQL float arithmetic is idealised as exact rational arithmetic.
  SQLite evaluates any division by zero to NULL (read back by pandas as
  NaN); columns that can be NULL/NaN this way are modelled as `Option ℚ`.
  `ROUND(x, 2)` / pandas `.round(2)` is modelled by `round2`; the bound
  |round2 x - x| ≤ 1/200 used below is valid for either tie-breaking rule.
* `COUNT(DISTINCT c)` is `distinctCount`; the LEFT JOIN fan-out of the
  engine queries (one output row per call × proposal × contract
  combination) is reproduced faithfully with `padNone` and `flatMap`.
-/

/-- Row of the `lead_sources` table. -/
structure LeadSourceRow where
  source_id : Nat
  source_name : String
  source_category : String
  attribution_window_days : Nat
  cost_per_lead : ℚ
  is_active : Bool

/-- Row of the `prospects` table (fields the engine reads). -/
structure ProspectRow where
  prospect_id : Nat
  email : String
  lead_source_id : Option Nat
  created_at : ℚ
  updated_at : ℚ

/-- Row of the `funnel_stages` table. -/
structure FunnelStageRow where
  stage_id : Nat
  stage_name : String
  stage_order : Int
  expected_duration_days : ℚ
  is_active : Bool

/-- Row of the `prospect_journey` table; `exited_at = none` models SQL NULL. -/
structure JourneyRow where
  journey_id : Nat
  prospect_id : Nat
  stage_id : Nat
  entered_at : ℚ
  exited_at : Option ℚ

/-- Row of the `discovery_calls` table (fields the engine reads). -/
structure DiscoveryCallRow where
  call_id : Nat
  prospect_id : Nat
  call_status : String

/-- Row of the `proposals` table (fields the engine reads). -/
structure ProposalRow where
  proposal_id : Nat
  prospect_id : Nat
  proposal_amount : ℚ

/-- Row of the `contracts` table (fields the engine reads). -/
structure ContractRow where
  contract_id : Nat
  prospect_id : Nat
  contract_value : ℚ
  monthly_recurring_revenue : ℚ
  contract_status : String
  signed_at : ℚ

/-- The SQLite store the engine queries. -/
structure Database where
  lead_sources : List LeadSourceRow
  prospects : List ProspectRow
  funnel_stages : List FunnelStageRow
  prospect_journey : List JourneyRow
  discovery_calls : List DiscoveryCallRow
  proposals : List ProposalRow
  contracts : List ContractRow

/-- SQL `x BETWEEN lo AND hi` (inclusive). -/
def betweenB (x lo hi : ℚ) : Bool := decide (lo ≤ x ∧ x ≤ hi)

/-- SQL `COUNT(DISTINCT id)` over a projected column. -/
def distinctCount (l : List Nat) : Nat := l.dedup.length

/-- SQL `AVG` over the non-NULL values of a column, with the engine's
`COALESCE(.., 0)` / `or 0` mapping of the empty case to 0. -/
def listAvg (l : List ℚ) : ℚ := if l.isEmpty then 0 else l.sum / (l.length : ℚ)

/-- SQL `ROUND(x, 2)` / pandas `.round(2)`. -/
def round2 (x : ℚ) : ℚ := ((round (x * 100) : ℤ) : ℚ) / 100

/-- LEFT JOIN padding: an empty right-hand side contributes one NULL row. -/
def padNone {α : Type} (l : List α) : List (Option α) :=
  if l.isEmpty then [none] else l.map some

/-- Discovery calls of one prospect (`ON p.prospect_id = dc.prospect_id`). -/
def callsOf (db : Database) (pid : Nat) : List DiscoveryCallRow :=
  db.discovery_calls.filter (fun c => c.prospect_id == pid)

/-- Proposals of one prospect. -/
def proposalsOf (db : Database) (pid : Nat) : List ProposalRow :=
  db.proposals.filter (fun pr => pr.prospect_id == pid)

/-- Contracts of one prospect. -/
def contractsOf (db : Database) (pid : Nat) : List ContractRow :=
  db.contracts.filter (fun c => c.prospect_id == pid)

/-- The optional source filter of `calculate_conversion_rates`.  Python's
`if lead_source_id:` treats the id 0 as falsy, so a `some 0` filter is
ignored exactly as in the source. -/
def sourceFilterMatches (filt : Option Nat) (p : ProspectRow) : Bool :=
  match filt with
  | none => true
  | some sid => if sid == 0 then true else p.lead_source_id == some sid

/-- Rows of `FROM prospects p WHERE p.created_at BETWEEN ? AND ? {source_filter}`. -/
def prospectsInRange (db : Database) (r : ℚ × ℚ) (filt : Option Nat) : List ProspectRow :=
  db.prospects.filter (fun p => betweenB p.created_at r.1 r.2 && sourceFilterMatches filt p)

/-- SQL `COUNT(DISTINCT p.prospect_id)` of the funnel-metrics query. -/
def total_leads_count (db : Database) (r : ℚ × ℚ) (filt : Option Nat) : Nat :=
  distinctCount ((prospectsInRange db r filt).map (fun p => p.prospect_id))

/-- Distinct prospects in range having at least one discovery call. -/
def discovery_scheduled_count (db : Database) (r : ℚ × ℚ) (filt : Option Nat) : Nat :=
  distinctCount (((prospectsInRange db r filt).filter
    (fun p => !(callsOf db p.prospect_id).isEmpty)).map (fun p => p.prospect_id))

/-- Distinct prospects in range having a call with `call_status = 'completed'`. -/
def discovery_completed_count (db : Database) (r : ℚ × ℚ) (filt : Option Nat) : Nat :=
  distinctCount (((prospectsInRange db r filt).filter
    (fun p => (callsOf db p.prospect_id).any (fun c => c.call_status == "completed"))).map
      (fun p => p.prospect_id))

/-- Distinct prospects in range having at least one proposal. -/
def proposals_sent_count (db : Database) (r : ℚ × ℚ) (filt : Option Nat) : Nat :=
  distinctCount (((prospectsInRange db r filt).filter
    (fun p => !(proposalsOf db p.prospect_id).isEmpty)).map (fun p => p.prospect_id))

/-- Distinct prospects in range having at least one contract. -/
def contracts_signed_count (db : Database) (r : ℚ × ℚ) (filt : Option Nat) : Nat :=
  distinctCount (((prospectsInRange db r filt).filter
    (fun p => !(contractsOf db p.prospect_id).isEmpty)).map (fun p => p.prospect_id))

/-- The row set of the funnel-metrics query restricted to its contract
column: `prospects LEFT JOIN discovery_calls LEFT JOIN proposals LEFT JOIN
contracts`.  Each (prospect, contract) pair appears once per
call × proposal combination of that prospect — the query's fan-out. -/
def contractJoinRows (db : Database) (r : ℚ × ℚ) (filt : Option Nat) :
    List (ProspectRow × ContractRow) :=
  (prospectsInRange db r filt).flatMap (fun p =>
    (padNone (callsOf db p.prospect_id)).flatMap (fun _ =>
      (padNone (proposalsOf db p.prospect_id)).flatMap (fun _ =>
        (contractsOf db p.prospect_id).map (fun c => (p, c)))))

/-- The Python guarded percentage `num / den * 100 if den > 0 else 0`. -/
def ratePct (num den : Nat) : ℚ :=
  if 0 < den then (num : ℚ) / (den : ℚ) * 100 else 0

/-- Prospects of one source created in range (`ls.source_id = p.lead_source_id
AND p.created_at BETWEEN ? AND ?`). -/
def prospectsOfSourceInRange (db : Database) (r : ℚ × ℚ) (ls : LeadSourceRow) :
    List ProspectRow :=
  db.prospects.filter (fun p =>
    p.lead_source_id == some ls.source_id && betweenB p.created_at r.1 r.2)

/-- Row set of `SELECT ls.cost_per_lead FROM lead_sources ls JOIN prospects p
ON ls.source_id = p.lead_source_id WHERE p.created_at BETWEEN ? AND ?`:
one row per (source, in-range prospect) pair. -/
def costPerLeadJoined (db : Database) (r : ℚ × ℚ) : List ℚ :=
  db.lead_sources.flatMap (fun ls =>
    (prospectsOfSourceInRange db r ls).map (fun _ => ls.cost_per_lead))

/-- SQL `AVG(ls.cost_per_lead)` over that join, with NULL (no rows) read as 0. -/
def avg_cost_per_lead (db : Database) (r : ℚ × ℚ) : ℚ :=
  if (costPerLeadJoined db r).isEmpty then 0
  else (costPerLeadJoined db r).sum / ((costPerLeadJoined db r).length : ℚ)

/-- The `cost_per_lead` the engine uses: the filtered source's own value when
a (truthy) source filter is given, otherwise the join average above. -/
def cost_per_lead_for (db : Database) (r : ℚ × ℚ) (filt : Option Nat) : ℚ :=
  match filt with
  | none => avg_cost_per_lead db r
  | some sid =>
    if sid == 0 then avg_cost_per_lead db r
    else (((db.lead_sources.find? (fun ls => ls.source_id == sid)).map
      (fun ls => ls.cost_per_lead)).getD 0)

/-- The `ConversionMetrics` dataclass. -/
structure ConversionMetrics where
  total_leads : Nat
  discovery_calls_scheduled : Nat
  discovery_calls_completed : Nat
  proposals_sent : Nat
  contracts_signed : Nat
  total_revenue : ℚ
  avg_deal_size : ℚ
  avg_sales_cycle_days : ℚ
  lead_to_discovery_rate : ℚ
  discovery_to_proposal_rate : ℚ
  proposal_to_contract_rate : ℚ
  overall_conversion_rate : ℚ
  cost_per_acquisition : ℚ
  lifetime_value : ℚ

/-- Engine method `FunnelAnalyticsEngine.calculate_conversion_rates`. -/
def calculate_conversion_rates (db : Database) (r : ℚ × ℚ) (filt : Option Nat) :
    ConversionMetrics :=
  let total_leads := total_leads_count db r filt
  let discovery_scheduled := discovery_scheduled_count db r filt
  let discovery_completed := discovery_completed_count db r filt
  let proposals_sent := proposals_sent_count db r filt
  let contracts_signed := contracts_signed_count db r filt
  let contract_values := (contractJoinRows db r filt).map (fun pc => pc.2.contract_value)
  let cycle_days := (contractJoinRows db r filt).map
    (fun pc => pc.2.signed_at - pc.1.created_at)
  let cost_per_lead := cost_per_lead_for db r filt
  { total_leads := total_leads
    discovery_calls_scheduled := discovery_scheduled
    discovery_calls_completed := discovery_completed
    proposals_sent := proposals_sent
    contracts_signed := contracts_signed
    total_revenue := contract_values.sum
    avg_deal_size := listAvg contract_values
    avg_sales_cycle_days := listAvg cycle_days
    lead_to_discovery_rate := ratePct discovery_scheduled total_leads
    discovery_to_proposal_rate := ratePct proposals_sent discovery_completed
    proposal_to_contract_rate := ratePct contracts_signed proposals_sent
    overall_conversion_rate := ratePct contracts_signed total_leads
    cost_per_acquisition :=
      if 0 < contracts_signed then
        cost_per_lead * (total_leads : ℚ) / (contracts_signed : ℚ)
      else 0
    lifetime_value := listAvg contract_values }

/-- The `BottleneckAnalysis` dataclass. -/
structure BottleneckAnalysis where
  stage_name : String
  conversion_rate : ℚ
  avg_duration_days : ℚ
  prospects_stuck : Nat
  bottleneck_severity : String
  recommendations : List String

/-- The severity classifier of `identify_bottlenecks` (HIGH rule first). -/
def severityLabel (conversion_rate duration_factor stuck_factor : ℚ) : String :=
  if conversion_rate < 50 ∨ 2 < duration_factor ∨ 3 / 10 < stuck_factor then "HIGH"
  else if conversion_rate < 70 ∨ 3 / 2 < duration_factor ∨ 1 / 5 < stuck_factor then "MEDIUM"
  else "LOW"

/-- Severity classification from the raw per-stage aggregates, exactly as the
loop body of `identify_bottlenecks` derives it. -/
def funnelStageSeverity (entered exited stuck : Nat) (avg_duration expected : ℚ) : String :=
  let conversion_rate := ratePct exited entered
  let duration_factor := if 0 < expected then avg_duration / expected else 1
  let stuck_factor := if 0 < entered then (stuck : ℚ) / (entered : ℚ) else 0
  severityLabel conversion_rate duration_factor stuck_factor

/-- The static per-stage recommendation table of
`_generate_bottleneck_recommendations`. -/
def stageRecommendationTable (stage_name : String) : List String :=
  if stage_name == "Lead Generated" then
    ["Implement lead scoring to prioritize high-quality prospects",
     "Create automated qualification sequences",
     "Review lead source quality and adjust targeting"]
  else if stage_name == "Discovery Call Scheduled" then
    ["Improve initial outreach messaging and value proposition",
     "Implement calendar booking automation",
     "Create urgency with limited-time offers or consultations"]
  else if stage_name == "Discovery Call Completed" then
    ["Reduce no-show rates with confirmation sequences",
     "Train sales team on discovery call best practices",
     "Implement call recording and analysis for improvement"]
  else if stage_name == "Proposal Sent" then
    ["Streamline discovery-to-proposal process",
     "Create proposal templates for faster turnaround",
     "Implement better qualification to ensure proposal-ready prospects"]
  else if stage_name == "Proposal Under Review" then
    ["Create structured follow-up sequences",
     "Implement proposal tracking and engagement analytics",
     "Add social proof and case studies to proposals"]
  else if stage_name == "Contract Negotiation" then
    ["Streamline contract terms and reduce complexity",
     "Train team on objection handling and negotiation",
     "Create flexible pricing options and packages"]
  else []

/-- Engine method `_generate_bottleneck_recommendations`: stage-specific entries, then the
three performance-triggered pairs, truncated to 5. -/
def generate_bottleneck_recommendations (stage_name : String)
    (conversion_rate duration_factor stuck_factor : ℚ) : List String :=
  (stageRecommendationTable stage_name
    ++ (if conversion_rate < 50 then
          ["URGENT: Review and improve qualification criteria",
           "Analyze lost prospects for common patterns"] else [])
    ++ (if 2 < duration_factor then
          ["Implement automated follow-up sequences",
           "Set clear timelines and next steps with prospects"] else [])
    ++ (if 3 / 10 < stuck_factor then
          ["Create re-engagement campaigns for stalled prospects",
           "Implement stage-specific nurturing content"] else [])).take 5

/-- Journey rows of one stage entered in range (`pj.stage_id = fs.stage_id
AND pj.entered_at BETWEEN ? AND ?`). -/
def journeysOfStage (db : Database) (r : ℚ × ℚ) (sid : Nat) : List JourneyRow :=
  db.prospect_journey.filter (fun j => j.stage_id == sid && betweenB j.entered_at r.1 r.2)

/-- SQL `COUNT(DISTINCT pj.prospect_id)` of one stage's in-range journeys. -/
def stage_entered_count (db : Database) (r : ℚ × ℚ) (sid : Nat) : Nat :=
  distinctCount ((journeysOfStage db r sid).map (fun j => j.prospect_id))

/-- Distinct prospects of the stage whose journey row has a non-NULL exit. -/
def stage_exited_count (db : Database) (r : ℚ × ℚ) (sid : Nat) : Nat :=
  distinctCount (((journeysOfStage db r sid).filter (fun j => j.exited_at.isSome)).map
    (fun j => j.prospect_id))

/-- The per-row dwell time the stage query averages: exited rows contribute
`exited_at - entered_at`, still-open rows contribute `now - entered_at`. -/
def journeyDuration (now : ℚ) (j : JourneyRow) : ℚ :=
  match j.exited_at with
  | some e => e - j.entered_at
  | none => now - j.entered_at

/-- Distinct still-open prospects whose elapsed time exceeds the stage's
expected duration. -/
def stage_stuck_count (db : Database) (r : ℚ × ℚ) (now : ℚ) (s : FunnelStageRow) : Nat :=
  distinctCount (((journeysOfStage db r s.stage_id).filter
    (fun j => j.exited_at.isNone && decide (s.expected_duration_days < now - j.entered_at))).map
      (fun j => j.prospect_id))

/-- The loop body of `identify_bottlenecks` for one stage row. -/
def stageAnalysis (db : Database) (r : ℚ × ℚ) (now : ℚ) (s : FunnelStageRow) :
    BottleneckAnalysis :=
  let entered := stage_entered_count db r s.stage_id
  let exited := stage_exited_count db r s.stage_id
  let avg_duration := listAvg ((journeysOfStage db r s.stage_id).map (journeyDuration now))
  let stuck := stage_stuck_count db r now s
  let conversion_rate := ratePct exited entered
  let duration_factor :=
    if 0 < s.expected_duration_days then avg_duration / s.expected_duration_days else 1
  let stuck_factor := if 0 < entered then (stuck : ℚ) / (entered : ℚ) else 0
  { stage_name := s.stage_name
    conversion_rate := conversion_rate
    avg_duration_days := avg_duration
    prospects_stuck := stuck
    bottleneck_severity := funnelStageSeverity entered exited stuck avg_duration
      s.expected_duration_days
    recommendations := generate_bottleneck_recommendations s.stage_name conversion_rate
      duration_factor stuck_factor }

/-- Sort relation of `ORDER BY fs.stage_order`. -/
def stageOrderLe (a b : FunnelStageRow) : Prop := a.stage_order ≤ b.stage_order

instance : DecidableRel stageOrderLe := fun a b =>
  inferInstanceAs (Decidable (a.stage_order ≤ b.stage_order))

instance : IsTotal FunnelStageRow stageOrderLe := ⟨fun a b => le_total a.stage_order b.stage_order⟩

instance : IsTrans FunnelStageRow stageOrderLe := ⟨fun _ _ _ h h' => le_trans h h'⟩

/-- The stage rows the bottleneck query ranges over: every stage whose name is
not 'Lost/Disqualified' — the query has no `is_active` condition — ordered by
`stage_order`. -/
def bottleneckStages (db : Database) : List FunnelStageRow :=
  (db.funnel_stages.filter (fun s => s.stage_name != "Lost/Disqualified")).insertionSort
    stageOrderLe

/-- Engine method `FunnelAnalyticsEngine.identify_bottlenecks`; `now` models julianday('now'). -/
def identify_bottlenecks (db : Database) (r : ℚ × ℚ) (now : ℚ) : List BottleneckAnalysis :=
  (bottleneckStages db).map (stageAnalysis db r now)

/-- One output record of `get_lead_source_performance`.  `conversion_rate` and
`revenue_per_lead` are `Option ℚ` because SQLite evaluates their 0/0 case
(a source with no leads in range) to NULL, which pandas reads as NaN. -/
structure SourcePerformanceRow where
  source_name : String
  source_category : String
  cost_per_lead : ℚ
  total_leads : Nat
  discovery_calls : Nat
  proposals_sent : Nat
  contracts_signed : Nat
  total_revenue : ℚ
  avg_deal_size : ℚ
  conversion_rate : Option ℚ
  revenue_per_lead : Option ℚ
  total_acquisition_cost : ℚ
  roi : ℚ
  payback_period_months : ℚ

/-- Contract-column row set of the per-source query, with the same
call × proposal fan-out as the funnel-metrics query. -/
def sourceContractJoinValues (db : Database) (r : ℚ × ℚ) (ls : LeadSourceRow) : List ℚ :=
  (prospectsOfSourceInRange db r ls).flatMap (fun p =>
    (padNone (callsOf db p.prospect_id)).flatMap (fun _ =>
      (padNone (proposalsOf db p.prospect_id)).flatMap (fun _ =>
        (contractsOf db p.prospect_id).map (fun c => c.contract_value))))

/-- One grouped row of the per-source query plus the two pandas columns. -/
def sourcePerformanceRecord (db : Database) (r : ℚ × ℚ) (ls : LeadSourceRow) :
    SourcePerformanceRow :=
  let leads := prospectsOfSourceInRange db r ls
  let total_leads := distinctCount (leads.map (fun p => p.prospect_id))
  let discovery_calls :=
    distinctCount ((leads.flatMap (fun p => callsOf db p.prospect_id)).map (fun c => c.call_id))
  let proposals_sent :=
    distinctCount ((leads.flatMap (fun p => proposalsOf db p.prospect_id)).map
      (fun pr => pr.proposal_id))
  let contracts_signed :=
    distinctCount ((leads.flatMap (fun p => contractsOf db p.prospect_id)).map
      (fun c => c.contract_id))
  let contract_values := sourceContractJoinValues db r ls
  let total_revenue := contract_values.sum
  let conversion_rate : Option ℚ :=
    if 0 < total_leads then
      some (round2 ((contracts_signed : ℚ) / (total_leads : ℚ) * 100))
    else none
  let revenue_per_lead : Option ℚ :=
    if 0 < total_leads then some (total_revenue / (total_leads : ℚ)) else none
  let total_acquisition_cost := ls.cost_per_lead * (total_leads : ℚ)
  { source_name := ls.source_name
    source_category := ls.source_category
    cost_per_lead := ls.cost_per_lead
    total_leads := total_leads
    discovery_calls := discovery_calls
    proposals_sent := proposals_sent
    contracts_signed := contracts_signed
    total_revenue := total_revenue
    avg_deal_size := listAvg contract_values
    conversion_rate := conversion_rate
    revenue_per_lead := revenue_per_lead
    total_acquisition_cost := total_acquisition_cost
    roi :=
      if 0 < total_acquisition_cost then
        (total_revenue - total_acquisition_cost) / total_acquisition_cost * 100
      else 0
    payback_period_months :=
      match revenue_per_lead with
      | some v => if 0 < v then ls.cost_per_lead / (v / 12) else 0
      | none => 0 }

/-- Sort relation of `ORDER BY total_revenue DESC, total_leads DESC`. -/
def perfGe (a b : SourcePerformanceRow) : Prop :=
  b.total_revenue < a.total_revenue ∨
    (a.total_revenue = b.total_revenue ∧ b.total_leads ≤ a.total_leads)

instance : DecidableRel perfGe := fun a b =>
  inferInstanceAs (Decidable (b.total_revenue < a.total_revenue ∨
    (a.total_revenue = b.total_revenue ∧ b.total_leads ≤ a.total_leads)))

/-- Engine method `FunnelAnalyticsEngine.get_lead_source_performance`: one record per active
lead source (LEFT JOIN keeps zero-lead sources), sorted by revenue then
volume, descending. -/
def get_lead_source_performance (db : Database) (r : ℚ × ℚ) : List SourcePerformanceRow :=
  ((db.lead_sources.filter (fun ls => ls.is_active)).map
    (sourcePerformanceRecord db r)).insertionSort perfGe

/-- One row of the attribution base query (`contracts JOIN prospects JOIN
lead_sources WHERE signed_at BETWEEN ? AND ? AND contract_status = 'active'`). -/
structure AttributionJoinRow where
  source_name : String
  source_category : String
  contract_value : ℚ
  monthly_recurring_revenue : ℚ
  sales_cycle_days : ℚ

/-- The attribution base query.  Its `ORDER BY source_name, signed_at` only
fixes presentation order and is immaterial to the grouped aggregates, so row
order here follows table order. -/
def attributionJoinRows (db : Database) (r : ℚ × ℚ) : List AttributionJoinRow :=
  db.contracts.flatMap (fun c =>
    if c.contract_status == "active" && betweenB c.signed_at r.1 r.2 then
      (db.prospects.filter (fun p => p.prospect_id == c.prospect_id)).flatMap (fun p =>
        (db.lead_sources.filter (fun ls => p.lead_source_id == some ls.source_id)).map
          (fun ls =>
            { source_name := ls.source_name
              source_category := ls.source_category
              contract_value := c.contract_value
              monthly_recurring_revenue := c.monthly_recurring_revenue
              sales_cycle_days := c.signed_at - p.created_at }))
    else [])

/-- One output row of `calculate_revenue_attribution`. -/
structure AttributionRow where
  source_name : String
  source_category : String
  total_attributed_revenue : ℚ
  avg_deal_size : ℚ
  total_contracts : Nat
  total_mrr : ℚ
  avg_sales_cycle_days : ℚ
  revenue_percentage : ℚ

/-- The distinct `(source_name, source_category)` group keys. -/
def attributionKeys (db : Database) (r : ℚ × ℚ) : List (String × String) :=
  ((attributionJoinRows db r).map (fun a => (a.source_name, a.source_category))).dedup

/-- The grouped aggregates of one key, `.round(2)` applied as in the pandas
`agg(...).round(2)`; `revenue_percentage` is filled in afterwards. -/
def attributionGroup (rows : List AttributionJoinRow) (key : String × String) :
    AttributionRow :=
  let g := rows.filter (fun a => a.source_name == key.1 && a.source_category == key.2)
  { source_name := key.1
    source_category := key.2
    total_attributed_revenue := round2 ((g.map (fun a => a.contract_value)).sum)
    avg_deal_size := round2 (listAvg (g.map (fun a => a.contract_value)))
    total_contracts := g.length
    total_mrr := round2 ((g.map (fun a => a.monthly_recurring_revenue)).sum)
    avg_sales_cycle_days := round2 (listAvg (g.map (fun a => a.sales_cycle_days)))
    revenue_percentage := 0 }

/-- Sort relation of `sort_values('total_attributed_revenue', ascending=False)`. -/
def attrRevenueGe (a b : AttributionRow) : Prop :=
  b.total_attributed_revenue ≤ a.total_attributed_revenue

instance : DecidableRel attrRevenueGe := fun a b =>
  inferInstanceAs (Decidable (b.total_attributed_revenue ≤ a.total_attributed_revenue))

/-- The grouped aggregate rows, percentage column still unset. -/
def attributionGroups (db : Database) (r : ℚ × ℚ) : List AttributionRow :=
  (attributionKeys db r).map (attributionGroup (attributionJoinRows db r))

/-- The percentage denominator: the revenue sum across all groups of the
result, not a global constant. -/
def attributionGrandTotal (db : Database) (r : ℚ × ℚ) : ℚ :=
  ((attributionGroups db r).map (fun g => g.total_attributed_revenue)).sum

/-- The groups with `revenue_percentage = round(total / grand_total * 100, 2)`
filled in.  ℚ's division by zero stands in for the all-zero-revenue case, in
which pandas produces NaN percentages (either way they fail to sum to 100). -/
def attributionWithPct (db : Database) (r : ℚ × ℚ) : List AttributionRow :=
  (attributionGroups db r).map (fun g =>
    { g with revenue_percentage :=
        round2 (g.total_attributed_revenue / attributionGrandTotal db r * 100) })

/-- Engine method `FunnelAnalyticsEngine.calculate_revenue_attribution`: empty when no
active contract was signed in range, otherwise the grouped rows sorted by
attributed revenue, descending. -/
def calculate_revenue_attribution (db : Database) (r : ℚ × ℚ) : List AttributionRow :=
  if (attributionJoinRows db r).isEmpty then []
  else (attributionWithPct db r).insertionSort attrRevenueGe

/-- SQL `UPDATE prospects SET lead_source_id = ?, updated_at = CURRENT_TIMESTAMP
WHERE email = ?`. -/
def setProspectSource (ps : List ProspectRow) (email : String) (sid : Nat) (now : ℚ) :
    List ProspectRow :=
  ps.map (fun p =>
    if p.email == email then { p with lead_source_id := some sid, updated_at := now } else p)

/-- The fresh rowid SQLite hands a newly inserted `lead_sources` row. -/
def nextSourceId (db : Database) : Nat :=
  (db.lead_sources.map (fun ls => ls.source_id)).foldr max 0 + 1

/-- The `lead_sources` row the INSERT branch of `track_lead_source` creates;
a new source gets the schema's `is_active DEFAULT 1`. -/
def newSourceRow (db : Database) (source_name category : String) (window : Nat)
    (cpl : ℚ) : LeadSourceRow :=
  { source_id := nextSourceId db, source_name := source_name,
    source_category := category, attribution_window_days := window,
    cost_per_lead := cpl, is_active := true }

/-- Engine method `FunnelAnalyticsEngine.track_lead_source`: get-or-create the source by
name, then point the prospect (looked up by email) at it.  The attribution
metadata dict is passed as its three read fields; `now` is
CURRENT_TIMESTAMP. -/
def track_lead_source (db : Database) (prospect_email source_name : String)
    (category : String) (window : Nat) (cpl : ℚ) (now : ℚ) : Database :=
  match db.lead_sources.find? (fun ls => ls.source_name == source_name) with
  | some src =>
    { db with prospects := setProspectSource db.prospects prospect_email src.source_id now }
  | none =>
    { db with
        lead_sources := db.lead_sources ++ [newSourceRow db source_name category window cpl]
        prospects :=
          setProspectSource db.prospects prospect_email (nextSourceId db) now }

/-- The `StrategicInsight` dataclass of the insights generator. -/
structure StrategicInsight where
  insight_type : String
  priority : String
  title : String
  description : String
  impact_estimate : String
  recommended_actions : List String
  success_metrics : List String
  confidence_score : ℚ

/-- Generator method `FunnelInsightsGenerator._create_30_60_90_action_plan`: the `30_days`,
`60_days` and `90_days` buckets, in that order. -/
def create_30_60_90_action_plan (insights : List StrategicInsight) :
    List String × List String × List String :=
  let high_priority := insights.filter (fun i => i.priority == "HIGH")
  let medium_priority := insights.filter (fun i => i.priority == "MEDIUM")
  ((high_priority.take 2).flatMap (fun i => i.recommended_actions.take 2),
   (high_priority.drop 2 ++ medium_priority.take 1).flatMap
     (fun i => i.recommended_actions.take 2),
   (medium_priority.drop 1).flatMap (fun i => i.recommended_actions.take 1))

/-- The action plan as claim C9 words it: the same priority bucketing with
every bucketed insight contributing up to 2 of its recommended actions —
including the 90-day bucket. -/
def claimed_30_60_90_action_plan (insights : List StrategicInsight) :
    List String × List String × List String :=
  let high_priority := insights.filter (fun i => i.priority == "HIGH")
  let medium_priority := insights.filter (fun i => i.priority == "MEDIUM")
  ((high_priority.take 2).flatMap (fun i => i.recommended_actions.take 2),
   (high_priority.drop 2 ++ medium_priority.take 1).flatMap
     (fun i => i.recommended_actions.take 2),
   (medium_priority.drop 1).flatMap (fun i => i.recommended_actions.take 2))

/-- The claim's spec formula for `total_revenue` (and, divided by count,
`avg_deal_size`): contract values of all contracts of the in-range
prospects, each counted once. -/
def claimed_total_revenue (db : Database) (r : ℚ × ℚ) (filt : Option Nat) : ℚ :=
  (((prospectsInRange db r filt).flatMap (fun p => contractsOf db p.prospect_id)).map
    (fun c => c.contract_value)).sum

/-- The claim's spec formula for the unfiltered cost-per-lead: the unweighted
mean of `cost_per_lead` over the sources with at least one in-range
prospect. -/
def claimed_unweighted_cost_per_lead (db : Database) (r : ℚ × ℚ) : ℚ :=
  let contributing := db.lead_sources.filter
    (fun ls => !(prospectsOfSourceInRange db r ls).isEmpty)
  if contributing.isEmpty then 0
  else (contributing.map (fun ls => ls.cost_per_lead)).sum / (contributing.length : ℚ)

/-- Numeric rank of a severity label, in the order LOW < MEDIUM < HIGH. -/
def severityRank (s : String) : Nat :=
  if s == "HIGH" then 2 else if s == "MEDIUM" then 1 else 0

-- ===============================
-- General lemmas about the model
-- ===============================

theorem distinctCount_filter_le {α : Type} (l : List α) (p : α → Bool) (f : α → Nat) :
    distinctCount ((l.filter p).map f) ≤ distinctCount (l.map f) := by
  have hsub : ((l.filter p).map f).dedup ⊆ (l.map f).dedup := by
    intro x hx
    rw [List.mem_dedup] at hx ⊢
    rcases List.mem_map.mp hx with ⟨a, ha, rfl⟩
    exact List.mem_map_of_mem f (List.mem_of_mem_filter ha)
  exact ((List.nodup_dedup _).subperm hsub).length_le

theorem ratePct_nonneg (n d : Nat) : 0 ≤ ratePct n d := by
  unfold ratePct
  split
  · positivity
  · exact le_refl 0

theorem ratePct_le_100 {n d : Nat} (h : n ≤ d) : ratePct n d ≤ 100 := by
  unfold ratePct
  split
  · rename_i hd
    have hd' : (0 : ℚ) < (d : ℚ) := by exact_mod_cast hd
    have hn : (n : ℚ) ≤ (d : ℚ) := by exact_mod_cast h
    rw [div_mul_eq_mul_div, div_le_iff₀ hd']
    nlinarith
  · norm_num

theorem ratePct_zero (n : Nat) : ratePct n 0 = 0 := by simp [ratePct]

theorem ratePct_mono {n n' : Nat} (d : Nat) (h : n' ≤ n) : ratePct n' d ≤ ratePct n d := by
  unfold ratePct
  split
  · have hn : (n' : ℚ) ≤ (n : ℚ) := by exact_mod_cast h
    gcongr
  · exact le_refl 0

theorem severityRank_le_two (s : String) : severityRank s ≤ 2 := by
  unfold severityRank
  split_ifs <;> omega

theorem severityLabel_mono {cr cr' : ℚ} (df sf : ℚ) (h : cr' ≤ cr) :
    severityRank (severityLabel cr df sf) ≤ severityRank (severityLabel cr' df sf) := by
  unfold severityLabel
  by_cases hH : cr' < 50 ∨ 2 < df ∨ 3 / 10 < sf
  · rw [if_pos hH]
    calc severityRank _ ≤ 2 := severityRank_le_two _
    _ = severityRank "HIGH" := by rfl
  · rw [if_neg hH]
    have hH2 : ¬(cr < 50 ∨ 2 < df ∨ 3 / 10 < sf) := by
      push_neg at hH ⊢
      exact ⟨le_trans hH.1 h, hH.2.1, hH.2.2⟩
    rw [if_neg hH2]
    by_cases hM : cr < 70 ∨ 3 / 2 < df ∨ 1 / 5 < sf
    · have hM' : cr' < 70 ∨ 3 / 2 < df ∨ 1 / 5 < sf := by
        rcases hM with h70 | hrest
        · exact Or.inl (lt_of_le_of_lt h h70)
        · exact Or.inr hrest
      rw [if_pos hM, if_pos hM']
    · rw [if_neg hM]
      exact Nat.zero_le _

-- projection identities of the metrics record (definitional)

theorem ccr_total_leads (db : Database) (r : ℚ × ℚ) (filt : Option Nat) :
    (calculate_conversion_rates db r filt).total_leads = total_leads_count db r filt := rfl

theorem ccr_discovery_completed (db : Database) (r : ℚ × ℚ) (filt : Option Nat) :
    (calculate_conversion_rates db r filt).discovery_calls_completed =
      discovery_completed_count db r filt := rfl

theorem ccr_proposals_sent (db : Database) (r : ℚ × ℚ) (filt : Option Nat) :
    (calculate_conversion_rates db r filt).proposals_sent = proposals_sent_count db r filt := rfl

theorem ccr_lead_to_discovery (db : Database) (r : ℚ × ℚ) (filt : Option Nat) :
    (calculate_conversion_rates db r filt).lead_to_discovery_rate =
      ratePct (discovery_scheduled_count db r filt) (total_leads_count db r filt) := rfl

theorem ccr_discovery_to_proposal (db : Database) (r : ℚ × ℚ) (filt : Option Nat) :
    (calculate_conversion_rates db r filt).discovery_to_proposal_rate =
      ratePct (proposals_sent_count db r filt) (discovery_completed_count db r filt) := rfl

theorem ccr_proposal_to_contract (db : Database) (r : ℚ × ℚ) (filt : Option Nat) :
    (calculate_conversion_rates db r filt).proposal_to_contract_rate =
      ratePct (contracts_signed_count db r filt) (proposals_sent_count db r filt) := rfl

theorem ccr_overall (db : Database) (r : ℚ × ℚ) (filt : Option Nat) :
    (calculate_conversion_rates db r filt).overall_conversion_rate =
      ratePct (contracts_signed_count db r filt) (total_leads_count db r filt) := rfl

theorem stageAnalysis_conversion_rate (db : Database) (r : ℚ × ℚ) (now : ℚ)
    (s : FunnelStageRow) :
    (stageAnalysis db r now s).conversion_rate =
      ratePct (stage_exited_count db r s.stage_id) (stage_entered_count db r s.stage_id) := rfl

theorem discovery_scheduled_le_total (db : Database) (r : ℚ × ℚ) (filt : Option Nat) :
    discovery_scheduled_count db r filt ≤ total_leads_count db r filt :=
  distinctCount_filter_le (prospectsInRange db r filt) _ _

theorem contracts_signed_le_total (db : Database) (r : ℚ × ℚ) (filt : Option Nat) :
    contracts_signed_count db r filt ≤ total_leads_count db r filt :=
  distinctCount_filter_le (prospectsInRange db r filt) _ _

theorem stage_exited_le_entered (db : Database) (r : ℚ × ℚ) (sid : Nat) :
    stage_exited_count db r sid ≤ stage_entered_count db r sid :=
  distinctCount_filter_le (journeysOfStage db r sid) _ _

-- ===============================
-- Claim theorems
-- ===============================

/-- C5 (confirmed): bottleneck severity is monotonic in the exit count.
Holding `prospects_entered`, `prospects_stuck`, the averaged duration and the
expected duration fixed, decreasing `prospects_exited` (which lowers the
stage conversion rate) never yields a strictly less severe classification in
the order LOW < MEDIUM < HIGH. -/
theorem c5_severity_monotone (entered exited exited' stuck : Nat)
    (avg_duration expected : ℚ) (h : exited' ≤ exited) :
    severityRank (funnelStageSeverity entered exited stuck avg_duration expected) ≤
      severityRank (funnelStageSeverity entered exited' stuck avg_duration expected) := by
  unfold funnelStageSeverity
  exact severityLabel_mono _ _ (ratePct_mono entered h)

/-- Witness for C5 at a concrete stage record. -/
theorem c5_severity_monotone_witness :
    3 ≤ 8 ∧
      severityRank (funnelStageSeverity 10 8 0 10 7) ≤
        severityRank (funnelStageSeverity 10 3 0 10 7) :=
  ⟨by norm_num, c5_severity_monotone 10 8 3 0 10 7 (by norm_num)⟩

theorem stageAnalysis_severity (db : Database) (r : ℚ × ℚ) (now : ℚ) (s : FunnelStageRow) :
    (stageAnalysis db r now s).bottleneck_severity =
      funnelStageSeverity (stage_entered_count db r s.stage_id)
        (stage_exited_count db r s.stage_id) (stage_stuck_count db r now s)
        (listAvg ((journeysOfStage db r s.stage_id).map (journeyDuration now)))
        s.expected_duration_days := rfl

/-- C10 (confirmed): a non-terminal stage with no journey entries in range is
still reported, and its record is classified HIGH — the empty stage defaults
to conversion rate 0, which satisfies the `conversion_rate < 50` rule. -/
theorem c10_empty_stage_high_severity (db : Database) (r : ℚ × ℚ) (now : ℚ)
    (s : FunnelStageRow) (hs : s ∈ db.funnel_stages)
    (hname : s.stage_name ≠ "Lost/Disqualified")
    (hj : journeysOfStage db r s.stage_id = []) :
    stageAnalysis db r now s ∈ identify_bottlenecks db r now ∧
      (stageAnalysis db r now s).bottleneck_severity = "HIGH" := by
  constructor
  · unfold identify_bottlenecks
    apply List.mem_map_of_mem
    unfold bottleneckStages
    rw [(List.perm_insertionSort stageOrderLe _).mem_iff]
    exact List.mem_filter.mpr ⟨hs, by simp [hname]⟩
  · have he : stage_entered_count db r s.stage_id = 0 := by
      simp [stage_entered_count, hj, distinctCount]
    rw [stageAnalysis_severity]
    unfold funnelStageSeverity severityLabel
    rw [he, ratePct_zero]
    rw [if_pos (Or.inl (by norm_num))]

/-- The empty-journey stage used by the C10 witness. -/
def stage_c10 : FunnelStageRow :=
  { stage_id := 1, stage_name := "Lead Generated", stage_order := 1,
    expected_duration_days := 7, is_active := true }

/-- A store with one non-terminal stage and no journey rows at all. -/
def db_c10 : Database :=
  { lead_sources := [], prospects := [], funnel_stages := [stage_c10],
    prospect_journey := [], discovery_calls := [], proposals := [], contracts := [] }

/-- Witness for C10 at a concrete store. -/
theorem c10_empty_stage_high_severity_witness :
    stageAnalysis db_c10 (0, 10) 30 stage_c10 ∈ identify_bottlenecks db_c10 (0, 10) 30 ∧
      (stageAnalysis db_c10 (0, 10) 30 stage_c10).bottleneck_severity = "HIGH" :=
  c10_empty_stage_high_severity db_c10 (0, 10) 30 stage_c10 (by simp [db_c10])
    (by decide) (by rfl)

/-- C1 amended (the claim holds for every rate except that
`discovery_to_proposal_rate` and `proposal_to_contract_rate` can exceed 100):
all five rates are nonnegative and are exactly 0 when their denominator is 0;
`lead_to_discovery_rate`, `overall_conversion_rate` and the per-stage
`conversion_rate` of `identify_bottlenecks` always lie in [0, 100]. -/
theorem c1_rates_amended (db : Database) (r : ℚ × ℚ) (filt : Option Nat) (now : ℚ) :
    (0 ≤ (calculate_conversion_rates db r filt).lead_to_discovery_rate ∧
      (calculate_conversion_rates db r filt).lead_to_discovery_rate ≤ 100) ∧
    (0 ≤ (calculate_conversion_rates db r filt).overall_conversion_rate ∧
      (calculate_conversion_rates db r filt).overall_conversion_rate ≤ 100) ∧
    0 ≤ (calculate_conversion_rates db r filt).discovery_to_proposal_rate ∧
    0 ≤ (calculate_conversion_rates db r filt).proposal_to_contract_rate ∧
    ((calculate_conversion_rates db r filt).total_leads = 0 →
      (calculate_conversion_rates db r filt).lead_to_discovery_rate = 0 ∧
        (calculate_conversion_rates db r filt).overall_conversion_rate = 0) ∧
    ((calculate_conversion_rates db r filt).discovery_calls_completed = 0 →
      (calculate_conversion_rates db r filt).discovery_to_proposal_rate = 0) ∧
    ((calculate_conversion_rates db r filt).proposals_sent = 0 →
      (calculate_conversion_rates db r filt).proposal_to_contract_rate = 0) ∧
    (∀ b ∈ identify_bottlenecks db r now,
      0 ≤ b.conversion_rate ∧ b.conversion_rate ≤ 100) ∧
    (∀ s : FunnelStageRow, stage_entered_count db r s.stage_id = 0 →
      (stageAnalysis db r now s).conversion_rate = 0) := by
  refine ⟨⟨?_, ?_⟩, ⟨?_, ?_⟩, ?_, ?_, ?_, ?_, ?_, ?_, ?_⟩
  · rw [ccr_lead_to_discovery]; exact ratePct_nonneg _ _
  · rw [ccr_lead_to_discovery]; exact ratePct_le_100 (discovery_scheduled_le_total db r filt)
  · rw [ccr_overall]; exact ratePct_nonneg _ _
  · rw [ccr_overall]; exact ratePct_le_100 (contracts_signed_le_total db r filt)
  · rw [ccr_discovery_to_proposal]; exact ratePct_nonneg _ _
  · rw [ccr_proposal_to_contract]; exact ratePct_nonneg _ _
  · intro h
    rw [ccr_total_leads] at h
    rw [ccr_lead_to_discovery, ccr_overall, h]
    exact ⟨ratePct_zero _, ratePct_zero _⟩
  · intro h
    rw [ccr_discovery_completed] at h
    rw [ccr_discovery_to_proposal, h]
    exact ratePct_zero _
  · intro h
    rw [ccr_proposals_sent] at h
    rw [ccr_proposal_to_contract, h]
    exact ratePct_zero _
  · intro b hb
    unfold identify_bottlenecks at hb
    rcases List.mem_map.mp hb with ⟨s, _, rfl⟩
    rw [stageAnalysis_conversion_rate]
    exact ⟨ratePct_nonneg _ _, ratePct_le_100 (stage_exited_le_entered db r s.stage_id)⟩
  · intro s h
    rw [stageAnalysis_conversion_rate, h]
    exact ratePct_zero _

/-- Witness for C1's amended theorem at a concrete store. -/
theorem c1_rates_amended_witness :
    0 ≤ (calculate_conversion_rates db_c10 (0, 10) none).lead_to_discovery_rate ∧
      (calculate_conversion_rates db_c10 (0, 10) none).lead_to_discovery_rate ≤ 100 :=
  (c1_rates_amended db_c10 (0, 10) none 30).1

/-- A store in which a prospect has a proposal but no completed discovery
call: one completed call (prospect 1), two proposals (prospects 1 and 2). -/
def db_c1 : Database :=
  { lead_sources := []
    prospects :=
      [{ prospect_id := 1, email := "a@x.io", lead_source_id := none,
         created_at := 5, updated_at := 5 },
       { prospect_id := 2, email := "b@x.io", lead_source_id := none,
         created_at := 5, updated_at := 5 }]
    funnel_stages := []
    prospect_journey := []
    discovery_calls := [{ call_id := 1, prospect_id := 1, call_status := "completed" }]
    proposals :=
      [{ proposal_id := 1, prospect_id := 1, proposal_amount := 100 },
       { proposal_id := 2, prospect_id := 2, proposal_amount := 100 }]
    contracts := [] }

/-- C1 counterexample: with one completed discovery call and two proposals the
engine reports `discovery_to_proposal_rate = 200`, outside [0, 100]. -/
theorem c1_rate_above_100_cex :
    (calculate_conversion_rates db_c1 (0, 10) none).discovery_to_proposal_rate = 200 ∧
      ¬(calculate_conversion_rates db_c1 (0, 10) none).discovery_to_proposal_rate ≤ 100 := by
  have h : (calculate_conversion_rates db_c1 (0, 10) none).discovery_to_proposal_rate = 200 := by
    rw [ccr_discovery_to_proposal]
    norm_num [proposals_sent_count, discovery_completed_count, prospectsInRange, db_c1,
      betweenB, sourceFilterMatches, callsOf, proposalsOf, distinctCount, ratePct]
  exact ⟨h, by rw [h]; norm_num⟩

theorem ccr_total_revenue (db : Database) (r : ℚ × ℚ) (filt : Option Nat) :
    (calculate_conversion_rates db r filt).total_revenue =
      ((contractJoinRows db r filt).map (fun pc => pc.2.contract_value)).sum := rfl

/-- A store with one in-range prospect having two discovery calls and one
contract worth 100. -/
def db_c2 : Database :=
  { lead_sources := []
    prospects :=
      [{ prospect_id := 1, email := "a@x.io", lead_source_id := none,
         created_at := 5, updated_at := 5 }]
    funnel_stages := []
    prospect_journey := []
    discovery_calls :=
      [{ call_id := 1, prospect_id := 1, call_status := "scheduled" },
       { call_id := 2, prospect_id := 1, call_status := "scheduled" }]
    proposals := []
    contracts :=
      [{ contract_id := 1, prospect_id := 1, contract_value := 100,
         monthly_recurring_revenue := 0, contract_status := "active", signed_at := 6 }] }

/-- C2 (code bug): the LEFT JOIN fan-out makes `SUM(c.contract_value)` count
the single 100-value contract once per discovery call, so the engine reports
`total_revenue = 200` where the documented sum of contract values is 100. -/
theorem c2_total_revenue_fanout_bug :
    (calculate_conversion_rates db_c2 (0, 10) none).total_revenue = 200 ∧
      claimed_total_revenue db_c2 (0, 10) none = 100 := by
  constructor
  · rw [ccr_total_revenue]
    norm_num [contractJoinRows, prospectsInRange, db_c2, betweenB, sourceFilterMatches,
      callsOf, proposalsOf, contractsOf, padNone]
  · norm_num [claimed_total_revenue, prospectsInRange, db_c2, betweenB,
      sourceFilterMatches, contractsOf]

/-- C6 amended (the query has no `is_active` condition, so inactive stages do
appear): `identify_bottlenecks` returns exactly one record per pipeline stage
— active or not — except those named 'Lost/Disqualified', and the underlying
stage list is sorted by `stage_order`, the records following it in order. -/
theorem c6_bottlenecks_amended (db : Database) (r : ℚ × ℚ) (now : ℚ) :
    (identify_bottlenecks db r now).length =
      (db.funnel_stages.filter (fun s => s.stage_name != "Lost/Disqualified")).length ∧
    (identify_bottlenecks db r now).map (fun b => b.stage_name) =
      (bottleneckStages db).map (fun s => s.stage_name) ∧
    List.Sorted stageOrderLe (bottleneckStages db) := by
  refine ⟨?_, ?_, ?_⟩
  · unfold identify_bottlenecks bottleneckStages
    rw [List.length_map, List.length_insertionSort]
  · unfold identify_bottlenecks
    rw [List.map_map]
    rfl
  · exact List.sorted_insertionSort stageOrderLe _

/-- An inactive, non-terminal stage. -/
def stage_c6 : FunnelStageRow :=
  { stage_id := 1, stage_name := "Contract Negotiation", stage_order := 6,
    expected_duration_days := 7, is_active := false }

/-- A store whose only pipeline stage is inactive. -/
def db_c6 : Database :=
  { lead_sources := [], prospects := [], funnel_stages := [stage_c6],
    prospect_journey := [], discovery_calls := [], proposals := [], contracts := [] }

/-- C6 counterexample: the store has no active stage at all, yet
`identify_bottlenecks` still returns a record for the inactive stage —
refuting "one record per active stage / inactive stages do not appear". -/
theorem c6_inactive_stage_cex :
    (identify_bottlenecks db_c6 (0, 10) 30).map (fun b => b.stage_name) =
      ["Contract Negotiation"] ∧
      db_c6.funnel_stages.filter (fun s => s.is_active) = [] := by
  constructor
  · simp [identify_bottlenecks, bottleneckStages, db_c6, stage_c6,
      List.insertionSort, stageAnalysis]
  · rfl

/-- C4 amended (left-join retention holds, but SQLite's 0/0 produces NULL,
not 0): an active source with no in-range leads still appears in the
result, its counts, revenue, acquisition cost, roi and payback all 0, while
`conversion_rate` and `revenue_per_lead` are NULL (pandas NaN) rather
than 0. -/
theorem c4_zero_lead_source_amended (db : Database) (r : ℚ × ℚ) (ls : LeadSourceRow)
    (hmem : ls ∈ db.lead_sources) (hact : ls.is_active = true)
    (hzero : prospectsOfSourceInRange db r ls = []) :
    sourcePerformanceRecord db r ls ∈ get_lead_source_performance db r ∧
      (sourcePerformanceRecord db r ls).total_leads = 0 ∧
      (sourcePerformanceRecord db r ls).discovery_calls = 0 ∧
      (sourcePerformanceRecord db r ls).proposals_sent = 0 ∧
      (sourcePerformanceRecord db r ls).contracts_signed = 0 ∧
      (sourcePerformanceRecord db r ls).total_revenue = 0 ∧
      (sourcePerformanceRecord db r ls).avg_deal_size = 0 ∧
      (sourcePerformanceRecord db r ls).total_acquisition_cost = 0 ∧
      (sourcePerformanceRecord db r ls).roi = 0 ∧
      (sourcePerformanceRecord db r ls).payback_period_months = 0 ∧
      (sourcePerformanceRecord db r ls).conversion_rate = none ∧
      (sourcePerformanceRecord db r ls).revenue_per_lead = none := by
  refine ⟨?_, ?_⟩
  · unfold get_lead_source_performance
    rw [(List.perm_insertionSort perfGe _).mem_iff]
    exact List.mem_map_of_mem _ (List.mem_filter.mpr ⟨hmem, hact⟩)
  · simp [sourcePerformanceRecord, sourceContractJoinValues, hzero, distinctCount, listAvg]

/-- The active zero-lead source of the C4 witness and counterexample. -/
def ls_c4 : LeadSourceRow :=
  { source_id := 1, source_name := "Industry Events", source_category := "event",
    attribution_window_days := 60, cost_per_lead := 150, is_active := true }

/-- A store with one active lead source and no prospects at all. -/
def db_c4 : Database :=
  { lead_sources := [ls_c4], prospects := [], funnel_stages := [],
    prospect_journey := [], discovery_calls := [], proposals := [], contracts := [] }

/-- Witness for C4's amended theorem at a concrete store. -/
theorem c4_zero_lead_source_amended_witness :
    sourcePerformanceRecord db_c4 (0, 10) ls_c4 ∈ get_lead_source_performance db_c4 (0, 10) ∧
      (sourcePerformanceRecord db_c4 (0, 10) ls_c4).total_leads = 0 ∧
      (sourcePerformanceRecord db_c4 (0, 10) ls_c4).discovery_calls = 0 ∧
      (sourcePerformanceRecord db_c4 (0, 10) ls_c4).proposals_sent = 0 ∧
      (sourcePerformanceRecord db_c4 (0, 10) ls_c4).contracts_signed = 0 ∧
      (sourcePerformanceRecord db_c4 (0, 10) ls_c4).total_revenue = 0 ∧
      (sourcePerformanceRecord db_c4 (0, 10) ls_c4).avg_deal_size = 0 ∧
      (sourcePerformanceRecord db_c4 (0, 10) ls_c4).total_acquisition_cost = 0 ∧
      (sourcePerformanceRecord db_c4 (0, 10) ls_c4).roi = 0 ∧
      (sourcePerformanceRecord db_c4 (0, 10) ls_c4).payback_period_months = 0 ∧
      (sourcePerformanceRecord db_c4 (0, 10) ls_c4).conversion_rate = none ∧
      (sourcePerformanceRecord db_c4 (0, 10) ls_c4).revenue_per_lead = none :=
  c4_zero_lead_source_amended db_c4 (0, 10) ls_c4 (by simp [db_c4]) (by rfl) (by rfl)

/-- C4 counterexample: for the zero-lead active source the returned record's
`conversion_rate` (and `revenue_per_lead`) is NULL, not the claimed 0. -/
theorem c4_zero_lead_source_cex :
    (get_lead_source_performance db_c4 (0, 10)).map (fun rec => rec.conversion_rate) =
      [none] ∧
      (get_lead_source_performance db_c4 (0, 10)).map (fun rec => rec.revenue_per_lead) =
        [none] ∧
      (none : Option ℚ) ≠ some 0 := by
  refine ⟨?_, ?_, by simp⟩
  · simp [get_lead_source_performance, db_c4, ls_c4, List.insertionSort,
      sourcePerformanceRecord, prospectsOfSourceInRange, distinctCount]
  · simp [get_lead_source_performance, db_c4, ls_c4, List.insertionSort,
      sourcePerformanceRecord, prospectsOfSourceInRange, distinctCount]

theorem setProspectSource_twice (ps : List ProspectRow) (email : String) (sid : Nat)
    (t t' : ℚ) :
    setProspectSource (setProspectSource ps email sid t) email sid t' =
      setProspectSource ps email sid t' := by
  unfold setProspectSource
  rw [List.map_map]
  congr 1
  funext p
  by_cases h : p.email == email <;> simp [Function.comp, h]

theorem setProspectSource_pairs (ps : List ProspectRow) (email : String) (sid : Nat)
    (t t' : ℚ) :
    (setProspectSource ps email sid t').map (fun p => (p.prospect_id, p.lead_source_id)) =
      (setProspectSource ps email sid t).map (fun p => (p.prospect_id, p.lead_source_id)) := by
  unfold setProspectSource
  rw [List.map_map, List.map_map]
  congr 1
  funext p
  by_cases h : p.email == email <;> simp [Function.comp, h]

theorem track_lead_source_found (db : Database) (email name category : String)
    (window : Nat) (cpl : ℚ) (now : ℚ) (src : LeadSourceRow)
    (h : db.lead_sources.find? (fun ls => ls.source_name == name) = some src) :
    track_lead_source db email name category window cpl now =
      { db with prospects := setProspectSource db.prospects email src.source_id now } := by
  unfold track_lead_source
  rw [h]

theorem track_lead_source_new (db : Database) (email name category : String)
    (window : Nat) (cpl : ℚ) (now : ℚ)
    (h : db.lead_sources.find? (fun ls => ls.source_name == name) = none) :
    track_lead_source db email name category window cpl now =
      { db with
          lead_sources := db.lead_sources ++ [newSourceRow db name category window cpl]
          prospects := setProspectSource db.prospects email (nextSourceId db) now } := by
  unfold track_lead_source
  rw [h]

/-- C7 (confirmed): `track_lead_source` is idempotent on (email, source name).
A second call with identical arguments leaves the `lead_sources` table
literally unchanged (in particular it inserts no second row with that name)
and leaves every prospect's `lead_source_id` as the first call set it (only
`updated_at` is touched again). -/
theorem c7_track_lead_source_idempotent (db : Database)
    (email name category : String) (window : Nat) (cpl : ℚ) (t1 t2 : ℚ) :
    (track_lead_source (track_lead_source db email name category window cpl t1)
        email name category window cpl t2).lead_sources =
      (track_lead_source db email name category window cpl t1).lead_sources ∧
    (track_lead_source (track_lead_source db email name category window cpl t1)
        email name category window cpl t2).prospects.map
        (fun p => (p.prospect_id, p.lead_source_id)) =
      (track_lead_source db email name category window cpl t1).prospects.map
        (fun p => (p.prospect_id, p.lead_source_id)) := by
  cases h : db.lead_sources.find? (fun ls => ls.source_name == name) with
  | some src =>
    have h1 := track_lead_source_found db email name category window cpl t1 src h
    have h2 := track_lead_source_found
      (track_lead_source db email name category window cpl t1)
      email name category window cpl t2 src (by rw [h1]; exact h)
    rw [h2, h1]
    refine ⟨rfl, ?_⟩
    rw [show ({ db with
        prospects := setProspectSource db.prospects email src.source_id t1 } :
          Database).prospects = setProspectSource db.prospects email src.source_id t1
      from rfl, setProspectSource_twice]
    exact setProspectSource_pairs db.prospects email src.source_id t1 t2
  | none =>
    have h1 := track_lead_source_new db email name category window cpl t1 h
    have hfind : (track_lead_source db email name category window cpl t1).lead_sources.find?
        (fun ls => ls.source_name == name) = some (newSourceRow db name category window cpl) := by
      rw [h1]
      show (db.lead_sources ++ [newSourceRow db name category window cpl]).find? _ = _
      rw [List.find?_append, h]
      simp [newSourceRow]
    have h2 := track_lead_source_found
      (track_lead_source db email name category window cpl t1)
      email name category window cpl t2 (newSourceRow db name category window cpl) hfind
    rw [h2, h1]
    refine ⟨rfl, ?_⟩
    show (setProspectSource (setProspectSource db.prospects email (nextSourceId db) t1)
        email (newSourceRow db name category window cpl).source_id t2).map
        (fun p => (p.prospect_id, p.lead_source_id)) =
      (setProspectSource db.prospects email (nextSourceId db) t1).map
        (fun p => (p.prospect_id, p.lead_source_id))
    rw [show (newSourceRow db name category window cpl).source_id = nextSourceId db from rfl,
      setProspectSource_twice]
    exact setProspectSource_pairs db.prospects email (nextSourceId db) t1 t2

theorem sum_flatMap_q {α : Type} (l : List α) (f : α → List ℚ) :
    (l.flatMap f).sum = (l.map (fun a => (f a).sum)).sum := by
  induction l with
  | nil => rfl
  | cons a t ih => simp [List.flatMap_cons, List.sum_append, ih]

theorem length_flatMap_sum {α β : Type} (l : List α) (f : α → List β) :
    (l.flatMap f).length = (l.map (fun a => (f a).length)).sum := by
  induction l with
  | nil => rfl
  | cons a t ih => simp [List.flatMap_cons, ih]

theorem sum_map_const_q {α : Type} (l : List α) (c : ℚ) :
    (l.map (fun _ => c)).sum = (l.length : ℚ) * c := by
  induction l with
  | nil => simp
  | cons a t ih =>
    simp only [List.map_cons, List.sum_cons, List.length_cons, ih]
    push_cast
    ring

theorem cast_list_sum_nat (l : List Nat) :
    ((l.sum : Nat) : ℚ) = (l.map (fun n => (n : ℚ))).sum := by
  induction l with
  | nil => simp
  | cons a t ih => simp [ih]

theorem cast_length_join (l : List LeadSourceRow)
    (g : LeadSourceRow → List ProspectRow) (c : LeadSourceRow → ℚ) :
    (((l.flatMap (fun ls => (g ls).map (fun _ => c ls))).length : Nat) : ℚ) =
      (l.map (fun ls => ((g ls).length : ℚ))).sum := by
  induction l with
  | nil => simp
  | cons a t ih =>
    simp only [List.flatMap_cons, List.length_append, List.length_map, List.map_cons,
      List.sum_cons]
    push_cast [ih]
    ring

theorem ccr_cost_per_acquisition (db : Database) (r : ℚ × ℚ) (filt : Option Nat) :
    (calculate_conversion_rates db r filt).cost_per_acquisition =
      (if 0 < contracts_signed_count db r filt then
        cost_per_lead_for db r filt * (total_leads_count db r filt : ℚ) /
          (contracts_signed_count db r filt : ℚ)
      else 0) := rfl

/-- C8 amended (the SQL `AVG` runs over the source-prospect join, so each
source is weighted by its number of in-range prospects): the unfiltered
cost-per-lead equals the prospect-count-weighted mean
Σ nₛ·costₛ / Σ nₛ over the lead sources, which matches the claimed
unweighted mean over contributing sources only when their prospect counts
coincide. -/
theorem c8_cost_per_lead_weighted_amended (db : Database) (r : ℚ × ℚ)
    (h : costPerLeadJoined db r ≠ []) :
    avg_cost_per_lead db r =
      (db.lead_sources.map (fun ls =>
        ((prospectsOfSourceInRange db r ls).length : ℚ) * ls.cost_per_lead)).sum /
      (db.lead_sources.map (fun ls =>
        ((prospectsOfSourceInRange db r ls).length : ℚ))).sum := by
  unfold avg_cost_per_lead
  rw [if_neg (by simpa [List.isEmpty_iff] using h)]
  have hnum : (costPerLeadJoined db r).sum =
      (db.lead_sources.map (fun ls =>
        ((prospectsOfSourceInRange db r ls).length : ℚ) * ls.cost_per_lead)).sum := by
    unfold costPerLeadJoined
    rw [sum_flatMap_q]
    have hfn : (fun ls : LeadSourceRow =>
        ((prospectsOfSourceInRange db r ls).map (fun _ => ls.cost_per_lead)).sum) =
        (fun ls : LeadSourceRow =>
          ((prospectsOfSourceInRange db r ls).length : ℚ) * ls.cost_per_lead) := by
      funext ls
      exact sum_map_const_q _ _
    rw [hfn]
  have hden : (((costPerLeadJoined db r).length : Nat) : ℚ) =
      (db.lead_sources.map (fun ls =>
        ((prospectsOfSourceInRange db r ls).length : ℚ))).sum := by
    unfold costPerLeadJoined
    exact cast_length_join db.lead_sources (prospectsOfSourceInRange db r)
      (fun ls => ls.cost_per_lead)
  rw [hnum, hden]

/-- First lead source of the C8 store: cost 10, one in-range prospect. -/
def ls_c8a : LeadSourceRow :=
  { source_id := 1, source_name := "Website Organic", source_category := "website",
    attribution_window_days := 30, cost_per_lead := 10, is_active := true }

/-- Second lead source of the C8 store: cost 40, three in-range prospects. -/
def ls_c8b : LeadSourceRow :=
  { source_id := 2, source_name := "LinkedIn Ads", source_category := "linkedin",
    attribution_window_days := 7, cost_per_lead := 40, is_active := true }

/-- A store whose two sources have unequal in-range prospect counts (1 vs 3);
prospect 1 carries the single signed contract. -/
def db_c8 : Database :=
  { lead_sources := [ls_c8a, ls_c8b]
    prospects :=
      [{ prospect_id := 1, email := "p1@x.io", lead_source_id := some 1,
         created_at := 5, updated_at := 5 },
       { prospect_id := 2, email := "p2@x.io", lead_source_id := some 2,
         created_at := 5, updated_at := 5 },
       { prospect_id := 3, email := "p3@x.io", lead_source_id := some 2,
         created_at := 5, updated_at := 5 },
       { prospect_id := 4, email := "p4@x.io", lead_source_id := some 2,
         created_at := 5, updated_at := 5 }]
    funnel_stages := []
    prospect_journey := []
    discovery_calls := []
    proposals := []
    contracts :=
      [{ contract_id := 1, prospect_id := 1, contract_value := 50,
         monthly_recurring_revenue := 0, contract_status := "active", signed_at := 6 }] }

/-- C8 counterexample: the engine's average is the weighted
(10 + 40·3)/4 = 32.5, not the claimed unweighted (10 + 40)/2 = 25, and the
difference propagates into `cost_per_acquisition` (130 instead of 100). -/
theorem c8_cost_per_lead_weighted_cex :
    avg_cost_per_lead db_c8 (0, 10) = 65 / 2 ∧
      claimed_unweighted_cost_per_lead db_c8 (0, 10) = 25 ∧
      (calculate_conversion_rates db_c8 (0, 10) none).cost_per_acquisition = 130 ∧
      claimed_unweighted_cost_per_lead db_c8 (0, 10) *
          ((calculate_conversion_rates db_c8 (0, 10) none).total_leads : ℚ) /
          ((calculate_conversion_rates db_c8 (0, 10) none).contracts_signed : ℚ) = 100 ∧
      (65 : ℚ) / 2 ≠ 25 := by
  have h1 : avg_cost_per_lead db_c8 (0, 10) = 65 / 2 := by
    norm_num [avg_cost_per_lead, costPerLeadJoined, prospectsOfSourceInRange, db_c8,
      ls_c8a, ls_c8b, betweenB]
  have h2 : claimed_unweighted_cost_per_lead db_c8 (0, 10) = 25 := by
    norm_num [claimed_unweighted_cost_per_lead, prospectsOfSourceInRange, db_c8,
      ls_c8a, ls_c8b, betweenB]
  have hleads : total_leads_count db_c8 (0, 10) none = 4 := by
    norm_num [total_leads_count, prospectsInRange, db_c8, betweenB, sourceFilterMatches,
      distinctCount]
  have hsigned : contracts_signed_count db_c8 (0, 10) none = 1 := by
    norm_num [contracts_signed_count, prospectsInRange, db_c8, betweenB,
      sourceFilterMatches, contractsOf, distinctCount]
  have h3 : (calculate_conversion_rates db_c8 (0, 10) none).cost_per_acquisition = 130 := by
    rw [ccr_cost_per_acquisition, hleads, hsigned, if_pos (by norm_num)]
    show cost_per_lead_for db_c8 (0, 10) none * (4 : ℚ) / (1 : ℚ) = 130
    show avg_cost_per_lead db_c8 (0, 10) * (4 : ℚ) / (1 : ℚ) = 130
    rw [h1]
    norm_num
  refine ⟨h1, h2, h3, ?_, by norm_num⟩
  rw [ccr_total_leads, hleads, h2]
  rw [show (calculate_conversion_rates db_c8 (0, 10) none).contracts_signed =
    contracts_signed_count db_c8 (0, 10) none from rfl, hsigned]
  norm_num

/-- Witness for C8's amended theorem at the concrete store. -/
theorem c8_cost_per_lead_weighted_amended_witness :
    costPerLeadJoined db_c8 (0, 10) ≠ [] ∧
      avg_cost_per_lead db_c8 (0, 10) =
        (db_c8.lead_sources.map (fun ls =>
          ((prospectsOfSourceInRange db_c8 (0, 10) ls).length : ℚ) * ls.cost_per_lead)).sum /
        (db_c8.lead_sources.map (fun ls =>
          ((prospectsOfSourceInRange db_c8 (0, 10) ls).length : ℚ))).sum :=
  ⟨by norm_num [costPerLeadJoined, prospectsOfSourceInRange, db_c8, ls_c8a, ls_c8b, betweenB,
     List.cons_ne_nil],
   c8_cost_per_lead_weighted_amended db_c8 (0, 10)
     (by norm_num [costPerLeadJoined, prospectsOfSourceInRange, db_c8, ls_c8a, ls_c8b,
       betweenB, List.cons_ne_nil])⟩

theorem flatMap_take_one (l : List StrategicInsight) :
    l.flatMap (fun i => i.recommended_actions.take 1) =
      (l.filter (fun i => !i.recommended_actions.isEmpty)).map
        (fun i => i.recommended_actions.headI) := by
  induction l with
  | nil => rfl
  | cons a t ih =>
    cases hA : a.recommended_actions with
    | nil => simp [List.flatMap_cons, hA, ih]
    | cons x xs => simp [List.flatMap_cons, hA, ih]

/-- C9 amended (the 90-day bucket takes only the first recommended action of
each insight, not up to 2): the 30-day bucket holds up to 2 actions of each
of the first 2 HIGH insights, the 60-day bucket up to 2 actions of each
remaining HIGH insight and of the first MEDIUM insight, and the 90-day
bucket exactly the first action of each remaining MEDIUM insight that has
one. -/
theorem c9_action_plan_amended (insights : List StrategicInsight) :
    (create_30_60_90_action_plan insights).1 =
      ((insights.filter (fun i => i.priority == "HIGH")).take 2).flatMap
        (fun i => i.recommended_actions.take 2) ∧
    (create_30_60_90_action_plan insights).2.1 =
      ((insights.filter (fun i => i.priority == "HIGH")).drop 2 ++
        (insights.filter (fun i => i.priority == "MEDIUM")).take 1).flatMap
        (fun i => i.recommended_actions.take 2) ∧
    (create_30_60_90_action_plan insights).2.2 =
      (((insights.filter (fun i => i.priority == "MEDIUM")).drop 1).filter
        (fun i => !i.recommended_actions.isEmpty)).map
        (fun i => i.recommended_actions.headI) := by
  refine ⟨rfl, rfl, ?_⟩
  exact flatMap_take_one _

/-- First MEDIUM insight of the C9 counterexample (two recommended actions). -/
def insight_m1 : StrategicInsight :=
  { insight_type := "SALES_VELOCITY", priority := "MEDIUM",
    title := "Accelerate Sales Cycle", description := "d1", impact_estimate := "e1",
    recommended_actions := ["Shorten follow-up windows", "Standardize decision timelines"],
    success_metrics := [], confidence_score := 8 / 10 }

/-- Second MEDIUM insight of the C9 counterexample (two recommended actions). -/
def insight_m2 : StrategicInsight :=
  { insight_type := "DEAL_VALUE_OPTIMIZATION", priority := "MEDIUM",
    title := "Increase Deal Value", description := "d2", impact_estimate := "e2",
    recommended_actions := ["Bundle service packages", "Introduce premium tiers"],
    success_metrics := [], confidence_score := 7 / 10 }

/-- C9 counterexample: with two 2-action MEDIUM insights and no HIGH insight,
the code's 90-day bucket holds only the second insight's first action, while
the claim's up-to-2 reading yields both of its actions. -/
theorem c9_action_plan_cex :
    (create_30_60_90_action_plan [insight_m1, insight_m2]).2.2 =
      ["Bundle service packages"] ∧
      (claimed_30_60_90_action_plan [insight_m1, insight_m2]).2.2 =
        ["Bundle service packages", "Introduce premium tiers"] ∧
      create_30_60_90_action_plan [insight_m1, insight_m2] ≠
        claimed_30_60_90_action_plan [insight_m1, insight_m2] := by
  refine ⟨?_, ?_, ?_⟩
  · simp [create_30_60_90_action_plan, insight_m1, insight_m2]
  · simp [claimed_30_60_90_action_plan, insight_m1, insight_m2]
  · simp [create_30_60_90_action_plan, claimed_30_60_90_action_plan, insight_m1, insight_m2]

theorem abs_round2_sub (x : ℚ) : |round2 x - x| ≤ 1 / 200 := by
  unfold round2
  have h := abs_sub_round (x * 100)
  rw [abs_sub_comm] at h
  have hsplit : ((round (x * 100) : ℤ) : ℚ) / 100 - x =
      (((round (x * 100) : ℤ) : ℚ) - x * 100) / 100 := by ring
  rw [hsplit, abs_div, abs_of_pos (show (0 : ℚ) < 100 by norm_num)]
  calc |((round (x * 100) : ℤ) : ℚ) - x * 100| / 100 ≤ (1 / 2) / 100 := by gcongr
  _ = 1 / 200 := by norm_num

theorem sum_map_round2_close (l : List ℚ) :
    |(l.map round2).sum - l.sum| ≤ (l.length : ℚ) * (1 / 200) := by
  induction l with
  | nil => simp
  | cons a t ih =>
    simp only [List.map_cons, List.sum_cons, List.length_cons]
    calc |round2 a + (t.map round2).sum - (a + t.sum)|
        = |(round2 a - a) + ((t.map round2).sum - t.sum)| := by ring_nf
      _ ≤ |round2 a - a| + |(t.map round2).sum - t.sum| := abs_add _ _
      _ ≤ 1 / 200 + (t.length : ℚ) * (1 / 200) := add_le_add (abs_round2_sub a) ih
      _ = ((t.length + 1 : ℕ) : ℚ) * (1 / 200) := by push_cast; ring

theorem sum_map_mul_const (l : List ℚ) (c : ℚ) :
    (l.map (fun x => x * c)).sum = l.sum * c := by
  induction l with
  | nil => simp
  | cons a t ih =>
    simp only [List.map_cons, List.sum_cons, ih]
    ring

theorem sum_pct_raw_eq_100 (l : List ℚ) (h : l.sum ≠ 0) :
    (l.map (fun x => x / l.sum * 100)).sum = 100 := by
  have hfn : (fun x => x / l.sum * 100) = fun x => x * (100 / l.sum) := by
    funext x
    ring
  rw [hfn, sum_map_mul_const]
  field_simp

theorem sum_round2_pct_close (l : List ℚ) (h : l.sum ≠ 0) :
    |(l.map (fun x => round2 (x / l.sum * 100))).sum - 100| ≤
      (l.length : ℚ) * (1 / 200) := by
  have hcomp : l.map (fun x => round2 (x / l.sum * 100)) =
      (l.map (fun x => x / l.sum * 100)).map round2 := by
    rw [List.map_map]
    rfl
  rw [hcomp]
  have h2 := sum_map_round2_close (l.map (fun x => x / l.sum * 100))
  rw [sum_pct_raw_eq_100 l h, List.length_map] at h2
  exact h2

/-- C3 amended (the claim additionally needs a nonzero grand total: a
non-empty result whose active contracts all have value 0 yields 0/0
percentages — NaN in pandas — that do not sum to 100): whenever the result
is non-empty and the summed `total_attributed_revenue` over its groups is
nonzero, the `revenue_percentage` values sum to 100 within the accumulated
rounding error of 1/200 per group. -/
theorem c3_percentages_sum_amended (db : Database) (r : ℚ × ℚ)
    (hne : calculate_revenue_attribution db r ≠ [])
    (hT : ((calculate_revenue_attribution db r).map
      (fun g => g.total_attributed_revenue)).sum ≠ 0) :
    |((calculate_revenue_attribution db r).map (fun g => g.revenue_percentage)).sum - 100| ≤
      ((calculate_revenue_attribution db r).length : ℚ) * (1 / 200) := by
  unfold calculate_revenue_attribution at hne hT ⊢
  by_cases hrows : (attributionJoinRows db r).isEmpty
  · rw [if_pos hrows] at hne
    exact absurd rfl hne
  · rw [if_neg hrows] at hT ⊢
    have hperm := List.perm_insertionSort attrRevenueGe (attributionWithPct db r)
    have hrevmap : ((attributionWithPct db r).map
        (fun g => g.total_attributed_revenue)).sum = attributionGrandTotal db r := by
      unfold attributionWithPct attributionGrandTotal
      rw [List.map_map]
      rfl
    have hT' : attributionGrandTotal db r ≠ 0 := by
      rw [← hrevmap, ← (hperm.map (fun g => g.total_attributed_revenue)).sum_eq]
      exact hT
    rw [(hperm.map (fun g => g.revenue_percentage)).sum_eq, List.length_insertionSort]
    have hpct : (attributionWithPct db r).map (fun g => g.revenue_percentage) =
        ((attributionGroups db r).map (fun g => g.total_attributed_revenue)).map
          (fun x => round2 (x / attributionGrandTotal db r * 100)) := by
      unfold attributionWithPct
      rw [List.map_map, List.map_map]
      rfl
    have hlen : (attributionWithPct db r).length =
        ((attributionGroups db r).map (fun g => g.total_attributed_revenue)).length := by
      unfold attributionWithPct
      rw [List.length_map, List.length_map]
    rw [hpct, hlen]
    have hgt : attributionGrandTotal db r =
        ((attributionGroups db r).map (fun g => g.total_attributed_revenue)).sum := rfl
    rw [hgt] at hT' ⊢
    apply sum_round2_pct_close
    exact hT'

/-- Lead source of the C3 stores. -/
def ls_c3 : LeadSourceRow :=
  { source_id := 1, source_name := "Client Referrals", source_category := "referral",
    attribution_window_days := 90, cost_per_lead := 0, is_active := true }

/-- A store whose single active in-range contract has value 0: the grouped
result is non-empty but its grand total is 0. -/
def db_c3 : Database :=
  { lead_sources := [ls_c3]
    prospects :=
      [{ prospect_id := 1, email := "c3@x.io", lead_source_id := some 1,
         created_at := 0, updated_at := 0 }]
    funnel_stages := []
    prospect_journey := []
    discovery_calls := []
    proposals := []
    contracts :=
      [{ contract_id := 1, prospect_id := 1, contract_value := 0,
         monthly_recurring_revenue := 0, contract_status := "active", signed_at := 5 }] }

/-- C3 counterexample: the result is the single group of a 0-value active
contract, its `revenue_percentage` is the 0/0 case (NaN in pandas, 0 in the
ℚ model), and the percentages do not sum to 100 within rounding epsilon. -/
theorem c3_percentage_sum_cex :
    (calculate_revenue_attribution db_c3 (0, 10)).length = 1 ∧
      ((calculate_revenue_attribution db_c3 (0, 10)).map
        (fun g => g.revenue_percentage)).sum = 0 ∧
      ¬|((calculate_revenue_attribution db_c3 (0, 10)).map
            (fun g => g.revenue_percentage)).sum - 100| ≤
          ((calculate_revenue_attribution db_c3 (0, 10)).length : ℚ) * (1 / 200) := by
  have hmap : (calculate_revenue_attribution db_c3 (0, 10)).map
      (fun g => g.revenue_percentage) = [0] := by
    norm_num [calculate_revenue_attribution, attributionWithPct, attributionGroups,
      attributionGrandTotal, attributionKeys, attributionGroup, attributionJoinRows,
      db_c3, ls_c3, betweenB, List.insertionSort, List.orderedInsert, round2, listAvg]
  have hlen : (calculate_revenue_attribution db_c3 (0, 10)).length = 1 := by
    norm_num [calculate_revenue_attribution, attributionWithPct, attributionGroups,
      attributionGrandTotal, attributionKeys, attributionGroup, attributionJoinRows,
      db_c3, ls_c3, betweenB, List.insertionSort, List.orderedInsert, round2, listAvg]
  refine ⟨hlen, by rw [hmap]; norm_num, ?_⟩
  rw [hmap, hlen]
  norm_num

/-- Like `db_c3` but the contract is worth 100, so the grand total is
nonzero. -/
def db_w3 : Database :=
  { lead_sources := [ls_c3]
    prospects :=
      [{ prospect_id := 1, email := "c3@x.io", lead_source_id := some 1,
         created_at := 0, updated_at := 0 }]
    funnel_stages := []
    prospect_journey := []
    discovery_calls := []
    proposals := []
    contracts :=
      [{ contract_id := 1, prospect_id := 1, contract_value := 100,
         monthly_recurring_revenue := 0, contract_status := "active", signed_at := 5 }] }

/-- Witness for C3's amended theorem at a concrete store. -/
theorem c3_percentages_sum_amended_witness :
    calculate_revenue_attribution db_w3 (0, 10) ≠ [] ∧
      ((calculate_revenue_attribution db_w3 (0, 10)).map
        (fun g => g.total_attributed_revenue)).sum ≠ 0 ∧
      |((calculate_revenue_attribution db_w3 (0, 10)).map
          (fun g => g.revenue_percentage)).sum - 100| ≤
        ((calculate_revenue_attribution db_w3 (0, 10)).length : ℚ) * (1 / 200) :=
  ⟨by norm_num [calculate_revenue_attribution, attributionWithPct, attributionGroups,
      attributionGrandTotal, attributionKeys, attributionGroup, attributionJoinRows,
      db_w3, ls_c3, betweenB, List.insertionSort, List.orderedInsert, round2, listAvg,
      List.cons_ne_nil],
   by norm_num [calculate_revenue_attribution, attributionWithPct, attributionGroups,
      attributionGrandTotal, attributionKeys, attributionGroup, attributionJoinRows,
      db_w3, ls_c3, betweenB, List.insertionSort, List.orderedInsert, round2, listAvg,
      round_eq],
   c3_percentages_sum_amended db_w3 (0, 10)
     (by norm_num [calculate_revenue_attribution, attributionWithPct, attributionGroups,
        attributionGrandTotal, attributionKeys, attributionGroup, attributionJoinRows,
        db_w3, ls_c3, betweenB, List.insertionSort, List.orderedInsert, round2, listAvg,
        List.cons_ne_nil])
     (by norm_num [calculate_revenue_attribution, attributionWithPct, attributionGroups,
        attributionGrandTotal, attributionKeys, attributionGroup, attributionJoinRows,
        db_w3, ls_c3, betweenB, List.insertionSort, List.orderedInsert, round2, listAvg,
        round_eq])⟩
